import Mathlib

/-!
Verification development for the Aletheia fact-checking pipeline.

Definitions embed the program's data model and operations: the Debate
Council's vote aggregation, the Verdict Synthesizer's confidence banding
and disagreement policy, the Triage Classifier's pattern dispatch, the
Evidence Gatherer's bounded-retry state machine, the cache store, the
Adversarial Challenger's recommendation buckets, the frontend
VerificationResult rendering and the ChallengeForm validation.
-/

namespace Aletheia

/-! ## Debate Council vote aggregation (agents/ai_council.py, `determine_verdict`) -/

/-- A juror's vote, `Vote` enum of the backend. -/
inductive Vote where
  | TRUE
  | FALSE
  | UNCERTAIN
deriving DecidableEq, BEq, Repr

/-- Python's `max(vote_counts, key=vote_counts.get)` over the dict built in
insertion order `TRUE, FALSE, UNCERTAIN`: the first key whose count is not
strictly exceeded by a later key wins. -/
def maxVoteKey (t f u : Nat) : Vote :=
  if f > t then (if u > f then Vote.UNCERTAIN else Vote.FALSE)
  else (if u > t then Vote.UNCERTAIN else Vote.TRUE)

/-- `determine_verdict(votes)` of `ai_council.py` as documented in the
architecture document: counts the votes, takes the plurality key via
Python `max`, and returns `UNCERTAIN` only when the `UNCERTAIN` count is
at least half the panel (`vote_counts["UNCERTAIN"] >= len(votes) / 2`,
real division, embedded as `2 * u ≥ length`). The code performs no other
tie handling. -/
def determine_verdict (votes : List Vote) : Vote :=
  let t := votes.count Vote.TRUE
  let f := votes.count Vote.FALSE
  let u := votes.count Vote.UNCERTAIN
  if 2 * u ≥ votes.length then Vote.UNCERTAIN else maxVoteKey t f u

/-! ## Verdict Synthesizer confidence banding -/

/-- Categorical verdict of the `Verdict` data model. -/
inductive VerdictCategory where
  | falseV
  | probablyFalse
  | uncertain
  | probablyTrue
  | trueV
deriving DecidableEq, BEq, Repr

/-- Modelled from the spec: the Verdict Synthesizer (`judge.py`) is not in
the source snapshot; its confidence banding is specified in §4.6 and in
EDGE_CASES.md §4.3 as the non-overlapping ranges 0–20 FALSE,
20–35 PROBABLY_FALSE, 35–65 UNCERTAIN, 65–80 PROBABLY_TRUE,
80–100 TRUE, a boundary value falling in the higher band. -/
def verdictBand (c : ℚ) : VerdictCategory :=
  if c < 20 then VerdictCategory.falseV
  else if c < 35 then VerdictCategory.probablyFalse
  else if c < 65 then VerdictCategory.uncertain
  else if c < 80 then VerdictCategory.probablyTrue
  else VerdictCategory.trueV

/-! ## Triage Classifier (agents/claim_triage_fast.py, pattern tables of §7.2) -/

/-- `InputType` enum of the backend (`claim` / `question` / `comparison`). -/
inductive InputType where
  | claim
  | question
  | comparison
deriving DecidableEq, BEq, Repr

/-- A regex word character, `\w = [A-Za-z0-9_]`. -/
def isWordChar (c : Char) : Bool :=
  c.isAlphanum || c = '_'

/-- An occurrence of the literal `w` at position `i` of `s` delimited by
word boundaries on both sides (`\b w \b`). -/
def wordAt (w s : List Char) (i : Nat) : Bool :=
  w.isPrefixOf (s.drop i)
    && (decide (i = 0) || !(isWordChar (s.getD (i - 1) ' ')))
    && !(isWordChar (s.getD (i + w.length) ' '))

/-- `re.search(r'\bw\b', s)`: some boundary-delimited occurrence of `w`. -/
def hasWord (w : String) (s : List Char) : Bool :=
  (List.range (s.length + 1)).any (wordAt w.data s)

/-- `re.search(r'\bw\b.*\?', s)`: a boundary-delimited occurrence of `w`
with a question mark somewhere after it. -/
def hasWordThenQmark (w : String) (s : List Char) : Bool :=
  (List.range (s.length + 1)).any fun i =>
    wordAt w.data s i && (s.drop (i + w.data.length)).contains '?'

/-- `re.search(r'^(w1|...|wn)\s', s)`: the string opens with one of the
words immediately followed by a whitespace character. -/
def leadingWordSpace (ws : List String) (s : List Char) : Bool :=
  ws.any fun w =>
    w.data.isPrefixOf s
      && (match s.drop w.data.length with
          | c :: _ => c.isWhitespace
          | [] => false)

/-- `re.search(r'\?$', s)`: the string ends with a question mark. -/
def endsWithQmark (s : List Char) : Bool :=
  match s.getLast? with
  | some c => c = '?'
  | none => false

/-- `QUESTION_PATTERNS` of §7.2: leading interrogative word, leading modal
auxiliary with a later question mark, or trailing question mark. -/
def questionMatch (s : List Char) : Bool :=
  leadingWordSpace ["who", "what", "where", "when", "why", "how", "which",
    "whose", "whom"] s
  || (leadingWordSpace ["is", "are", "was", "were", "do", "does", "did",
        "can", "could", "will", "would", "should"] s
      && s.contains '?')
  || endsWithQmark s

/-- `COMPARISON_PATTERNS` of §7.2: `\b(or)\b.*\?`, `\b(vs|versus)\b`,
`\b(compared to|better than|worse than)\b`. -/
def comparisonMatch (s : List Char) : Bool :=
  hasWordThenQmark "or" s
  || hasWord "vs" s || hasWord "versus" s
  || hasWord "compared to" s || hasWord "better than" s
  || hasWord "worse than" s

/-- Modelled from the spec: the dispatch routine of
`claim_triage_fast.py` is not in the source snapshot, only its pattern
tables are (§7.2 of the architecture document). Per the spec's testable
property, a comparison-pattern match wins over a question-pattern match
(which also makes the `\b(or)\b.*\?` comparison pattern reachable on
inputs ending in a question mark); anything matching neither table is a
claim. -/
def classifyInput (s : List Char) : InputType :=
  if comparisonMatch s then InputType.comparison
  else if questionMatch s then InputType.question
  else InputType.claim

/-! ## Evidence Gatherer state machine (agents/fact_checker.py) -/

/-- States of the Evidence Gatherer: `Strategize → Execute → Analyze →
{Done | Strategize}`, the non-terminal states carrying the iteration
counter. `done` records the sufficiency flag that distinguishes the two
terminal outcomes. -/
inductive GState where
  | strategize (iter : Nat)
  | execute (iter : Nat)
  | analyze (iter : Nat)
  | done (sufficient : Bool)
deriving DecidableEq, BEq, Repr

/-- Modelled from the spec: `fact_checker.py` is not in the source
snapshot; §4.2 and the architecture diagram (Strategist → Executor →
Analyst, max 2 retry iterations) give its transition structure. `suff i`
is the Analyst's sufficiency judgment on iteration `i`; when every search
call errors the dossier is empty, so `suff` is constantly `false`.
`Analyze` returns control to `Strategize` only while the iteration
counter is below the cap of 2. -/
def gathererStep (suff : Nat → Bool) : GState → GState
  | GState.strategize i => GState.execute i
  | GState.execute i => GState.analyze i
  | GState.analyze i =>
      if suff i then GState.done true
      else if i < 2 then GState.strategize (i + 1)
      else GState.done false
  | GState.done s => GState.done s

/-- Nine applications of `gathererStep` from the initial state: three
steps per pass over at most three passes (the initial one plus the two
retries). -/
def gathererRun (suff : Nat → Bool) : GState :=
  gathererStep suff (gathererStep suff (gathererStep suff (gathererStep suff
    (gathererStep suff (gathererStep suff (gathererStep suff (gathererStep suff
      (gathererStep suff (GState.strategize 0)))))))))

/-! ## Verdict, cache store and run finalization -/

/-- The `Verdict` artifact of the data model, restricted to the fields
the cache invariants concern. -/
structure Verdict where
  result : VerdictCategory
  confidence : ℚ
  summary : String
deriving DecidableEq, Repr

/-- A `CacheEntry`: the prior verdict with its expiry timestamp
(`0` = no expiry, per the `Verdict` data model). -/
structure CacheEntry where
  verdict : Verdict
  expiry : Nat
deriving DecidableEq, Repr

/-- An entry is expired when it carries a real expiry timestamp that is
not in the future. -/
def isExpired (e : CacheEntry) (now : Nat) : Bool :=
  decide (e.expiry ≠ 0) && decide (e.expiry ≤ now)

/-- Modelled from the spec: the cache consultation of
`claim_processor.py` is not in the source snapshot; §3 and §4.7 specify
it. The store maps a claim fingerprint to an optional entry; a present,
non-expired entry is served as stored, anything else runs the pipeline
(`fresh` is the verdict the pipeline would produce). The boolean records
whether the pipeline (and hence any collaborator) was invoked. -/
def handleRequest (store : String → Option CacheEntry) (now : Nat)
    (fp : String) (fresh : Verdict) : Verdict × Bool :=
  match store fp with
  | some e => if isExpired e now then (fresh, true) else (e.verdict, false)
  | none => (fresh, true)

/-- Modelled from the spec: run completion of the orchestrator is not in
the source snapshot; §7 specifies that a `CacheWriteFailure` is logged
and swallowed: on a successful write the entry is stored, on a failed
write the store is left alone, and in both cases the already-computed
verdict is returned without a top-level error. -/
def finalizeRun (store : String → Option CacheEntry) (fp : String)
    (v : Verdict) (expiry : Nat) (writeOk : Bool) :
    Except String Verdict × (String → Option CacheEntry) :=
  if writeOk then
    (Except.ok v, fun k => if k = fp then some ⟨v, expiry⟩ else store k)
  else
    (Except.ok v, store)

/-! ## Verdict Synthesizer disposition and disagreement policy -/

/-- Disposition tier of the `Verdict` data model. -/
inductive Disposition where
  | auto
  | caveat
  | humanReview
deriving DecidableEq, BEq, Repr

/-- Modelled from the spec: the Verdict Synthesizer (`judge.py`) is not
in the source snapshot; §4.6 specifies the disagreement policy. If the
Credibility Analyzer's truth-lean and the Evidence Gatherer's truth-lean
diverge by more than 40 percentage points the disposition is
`human-review` regardless of the computed confidence; otherwise the
confidence tiering `tierOf` applies (taken as a parameter because the
spec's sub-95 disposition wording does not name one of the three tiers,
and the divergence guard is independent of it). -/
def synthesizeDisposition (tierOf : ℚ → Disposition)
    (credTruth evidTruth conf : ℚ) : Disposition :=
  if 40 < |credTruth - evidTruth| then Disposition.humanReview
  else tierOf conf

/-! ## Adversarial Challenger recommendation (agents/devils_advocate.py) -/

/-- Categorical recommendation of `DevilsAdvocateResult`. -/
inductive AttackRecommendation where
  | claimRobust
  | claimQuestionable
  | claimLikelyFalse
deriving DecidableEq, BEq, Repr

/-- Modelled from the spec: the recommendation derivation of
`devils_advocate.py` is not in the source snapshot, only the
`DevilsAdvocateResult` shape is; §4.4 gives the buckets
`attack_strength < 0.3 → claim_robust`, `0.3–0.6 → claim_questionable`,
`> 0.6 → claim_likely_false`. -/
def recommendationOf (s : ℚ) : AttackRecommendation :=
  if s < 3/10 then AttackRecommendation.claimRobust
  else if s ≤ 6/10 then AttackRecommendation.claimQuestionable
  else AttackRecommendation.claimLikelyFalse

/-! ## Frontend: VerificationResult component -/

/-- The fields of a claim-verification result payload that the
`VerificationResult` component's header destructures and uses for the
verdict badge and the Truth Probability display. `none` models an absent
or `null` JSON field. -/
structure VRData where
  truth_probability : Option ℚ
  verdict_text : Option String
deriving DecidableEq, Repr

/-- JavaScript `v || d` on a numeric field: `undefined`, `null` and `0`
are falsy and yield the default. -/
def jsOrNum (v : Option ℚ) (d : ℚ) : ℚ :=
  match v with
  | none => d
  | some x => if x = 0 then d else x

/-- `const truthProb = truth_probability || 50` (component line 76). -/
def truthProbOf (dta : VRData) : ℚ :=
  jsOrNum dta.truth_probability 50

/-- The verdict badge text,
`verdict_text || (isTrue ? "VERIFIED" : isFalse ? "DEBUNKED" : "UNCERTAIN")`
with `isTrue = truthProb >= 60` and `isFalse = truthProb <= 40`
(component lines 77-81 and 119); an empty `verdict_text` is falsy. -/
def verdictTextOf (dta : VRData) : String :=
  let fb :=
    if 60 ≤ truthProbOf dta then "VERIFIED"
    else if truthProbOf dta ≤ 40 then "DEBUNKED"
    else "UNCERTAIN"
  match dta.verdict_text with
  | some t => if t = "" then fb else t
  | none => fb

/-- Rendering of the component header. The Truth Probability display
(component line 135) evaluates `truth_probability.toFixed(0)` on the raw
field, not on the line-76 fallback, so a payload without the field
throws a `TypeError` and nothing renders: that fault is modelled by
`none`. On success the rendered header carries the badge text and the
displayed probability. -/
def renderVerification (dta : VRData) : Option (String × ℚ) :=
  match dta.truth_probability with
  | none => none
  | some tp => some (verdictTextOf dta, tp)

/-- A result payload whose `truth_probability` is absent. -/
def payloadMissingTP : VRData :=
  { truth_probability := none, verdict_text := none }

/-! ## Frontend: ChallengeForm component -/

/-- The form state of `ChallengeForm.tsx`. -/
structure ChallengeFormState where
  walletAddress : String
  stakeAmount : ℚ
  evidenceLinks : List String
  explanation : String
deriving DecidableEq, Repr

/-- The `ChallengeData` payload passed to `onSubmit`. -/
structure ChallengeData where
  verdict_id : String
  challenger_wallet : String
  stake_amount : ℚ
  evidence_links : List String
  explanation : String
deriving DecidableEq, Repr

/-- JavaScript `s.trim()`: the string with whitespace removed from both
ends. -/
def trimWS (s : String) : String :=
  String.mk
    (((s.data.dropWhile Char.isWhitespace).reverse.dropWhile
        Char.isWhitespace).reverse)

/-- `evidenceLinks.filter((l) => l.trim().length > 0)`. -/
def nonBlankLinks (ls : List String) : List String :=
  ls.filter fun l => 0 < (trimWS l).length

/-- `validateForm` of `ChallengeForm.tsx` (lines 64-84): returns the
error message set on the first failing check, or `none` when the form is
valid. -/
def validateForm (f : ChallengeFormState) : Option String :=
  if trimWS f.walletAddress = "" then
    some "Please enter your wallet address"
  else if f.stakeAmount < 1 ∨ 100 < f.stakeAmount then
    some "Stake must be between 1 and 100 SOL"
  else if (nonBlankLinks f.evidenceLinks).length < 2 then
    some "Please provide at least 2 evidence links"
  else if f.explanation.length < 100 then
    some "Explanation must be at least 100 characters"
  else
    none

/-- `handleSubmit` of `ChallengeForm.tsx` (lines 86-105): bails out with
the validation error when `validateForm` fails, otherwise invokes
`onSubmit` with the challenge payload whose `evidence_links` are the
non-blank links. -/
def handleSubmit (verdictId : String) (f : ChallengeFormState) :
    Except String ChallengeData :=
  match validateForm f with
  | some err => Except.error err
  | none =>
      Except.ok
        { verdict_id := verdictId
          challenger_wallet := f.walletAddress
          stake_amount := f.stakeAmount
          evidence_links := nonBlankLinks f.evidenceLinks
          explanation := f.explanation }

/-! ## Concrete fixtures used by witnesses -/

/-- A sample verdict used by the cache witnesses. -/
def sampleVerdict : Verdict :=
  { result := VerdictCategory.trueV, confidence := 92, summary := "confirmed" }

/-- A second, distinct verdict standing for a fresh pipeline result. -/
def freshVerdict : Verdict :=
  { result := VerdictCategory.uncertain, confidence := 50, summary := "fresh" }

/-- A cache entry with no expiry (`expiry = 0`). -/
def sampleEntry : CacheEntry :=
  { verdict := sampleVerdict, expiry := 0 }

/-- A store holding `sampleEntry` under every fingerprint. -/
def sampleStore : String → Option CacheEntry :=
  fun _ => some sampleEntry

/-- A 100-character explanation. -/
def sampleExplanation : String :=
  String.mk (List.replicate 100 'x')

/-- A form state that passes every `validateForm` check. -/
def sampleForm : ChallengeFormState :=
  { walletAddress := "wallet1"
    stakeAmount := 10
    evidenceLinks := ["https://a.example/e", "https://b.example/e", " "]
    explanation := sampleExplanation }

/-! ## Theorems -/

/-- C1. The Debate Council's `determine_verdict` is NOT the spec's
aggregation: it returns the plurality key even on an exact tie among the
non-Uncertain options. On the spec's own three examples the code yields
`TRUE`, `TRUE`, `TRUE`, while the spec (and the code's own comment
"If tie or majority UNCERTAIN, verdict is UNCERTAIN") requires
`[True, False, Uncertain]` to yield `Uncertain`. -/
theorem determine_verdict_tie_is_not_uncertain :
    determine_verdict [Vote.TRUE, Vote.TRUE, Vote.UNCERTAIN] = Vote.TRUE ∧
    determine_verdict [Vote.TRUE, Vote.FALSE, Vote.TRUE] = Vote.TRUE ∧
    determine_verdict [Vote.TRUE, Vote.FALSE, Vote.UNCERTAIN] = Vote.TRUE ∧
    Vote.TRUE ≠ Vote.UNCERTAIN := by
  refine ⟨rfl, rfl, rfl, ?_⟩
  decide

/-- C2. For every confidence in `[0, 100]` the categorical verdict is the
unique band of the non-overlapping ranges 0–20 False, 20–35
ProbablyFalse, 35–65 Uncertain, 65–80 ProbablyTrue, 80–100 True, a
boundary value falling in the higher band: 65 yields ProbablyTrue and
64.99 yields Uncertain. -/
theorem verdict_banding_partition (c : ℚ) (_h0 : 0 ≤ c) (_h1 : c ≤ 100) :
    ((verdictBand c = VerdictCategory.falseV ↔ c < 20) ∧
     (verdictBand c = VerdictCategory.probablyFalse ↔ 20 ≤ c ∧ c < 35) ∧
     (verdictBand c = VerdictCategory.uncertain ↔ 35 ≤ c ∧ c < 65) ∧
     (verdictBand c = VerdictCategory.probablyTrue ↔ 65 ≤ c ∧ c < 80) ∧
     (verdictBand c = VerdictCategory.trueV ↔ 80 ≤ c)) ∧
    verdictBand 65 = VerdictCategory.probablyTrue ∧
    verdictBand (6499/100) = VerdictCategory.uncertain := by
  refine ⟨⟨?_, ?_, ?_, ?_, ?_⟩, by norm_num [verdictBand], by norm_num [verdictBand]⟩ <;>
    · unfold verdictBand
      split_ifs <;> simp_all <;>
        first
          | linarith
          | (intro h; linarith)

/-- C2 witness at the boundary value 65. -/
theorem verdict_banding_partition_witness :
    (0 : ℚ) ≤ 65 ∧ (65 : ℚ) ≤ 100 ∧
    verdictBand 65 = VerdictCategory.probablyTrue :=
  ⟨by norm_num, by norm_num,
    (verdict_banding_partition 65 (by norm_num) (by norm_num)).2.1⟩

/-- C3. Every input ending in a question mark classifies as a question,
unless a comparison pattern also matches, in which case comparison wins;
it never classifies as a claim. -/
theorem triage_question_unless_comparison (s : List Char)
    (h : endsWithQmark s = true) :
    classifyInput s =
      (if comparisonMatch s then InputType.comparison else InputType.question) := by
  unfold classifyInput
  cases hc : comparisonMatch s <;> simp [hc, questionMatch, h]

/-- C3 witness on the concrete input `"is water wet?"`. -/
theorem triage_question_unless_comparison_witness :
    endsWithQmark "is water wet?".data = true ∧
    classifyInput "is water wet?".data =
      (if comparisonMatch "is water wet?".data then InputType.comparison
       else InputType.question) :=
  ⟨by decide, triage_question_unless_comparison "is water wet?".data (by decide)⟩

/-- C4. For every sufficiency oracle the Evidence Gatherer reaches a
terminal `done` state within nine steps (three passes: the initial one
plus at most two retries), the `done` state is absorbing (no infinite
loop), the machine never strategizes again once the iteration counter
has reached the cap of 2, and when every search call errors (constantly
insufficient evidence) the terminal state is `done false` — the same
terminal constructor as the sufficient outcome, distinguished only by
the flag. -/
theorem evidence_gatherer_terminates (suff : Nat → Bool) :
    (∃ f, gathererRun suff = GState.done f) ∧
    (∀ f, gathererStep suff (GState.done f) = GState.done f) ∧
    (∀ i j, 2 ≤ i → gathererStep suff (GState.analyze i) ≠ GState.strategize j) ∧
    gathererRun (fun _ => false) = GState.done false := by
  refine ⟨?_, fun f => rfl, ?_, rfl⟩
  · cases h0 : suff 0 <;> cases h1 : suff 1 <;> cases h2 : suff 2 <;>
      simp [gathererRun, gathererStep, h0, h1, h2]
  · intro i j hi
    have hc : ¬ i < 2 := by omega
    simp only [gathererStep, if_neg hc]
    split <;> simp

/-- C4 witness: at the retry cap the machine does not strategize again,
and with every search erroring the run ends in `done false`. -/
theorem evidence_gatherer_terminates_witness :
    gathererStep (fun _ => false) (GState.analyze 2) ≠ GState.strategize 3 ∧
    gathererRun (fun _ => false) = GState.done false :=
  ⟨(evidence_gatherer_terminates (fun _ => false)).2.2.1 2 3 (by norm_num),
   (evidence_gatherer_terminates (fun _ => false)).2.2.2⟩

/-- C5. Whenever the two upstream truth-leans diverge by more than 40
percentage points, the Synthesizer's disposition is human-review, for
every confidence value and every confidence tiering. -/
theorem disagreement_forces_human_review (tierOf : ℚ → Disposition)
    (credTruth evidTruth conf : ℚ) (h : 40 < |credTruth - evidTruth|) :
    synthesizeDisposition tierOf credTruth evidTruth conf =
      Disposition.humanReview := by
  unfold synthesizeDisposition
  rw [if_pos h]

/-- C5 witness at leans 90 and 40 with confidence 99. -/
theorem disagreement_forces_human_review_witness :
    40 < |(90 : ℚ) - 40| ∧
    synthesizeDisposition (fun _ => Disposition.auto) 90 40 99 =
      Disposition.humanReview :=
  ⟨by rw [show (90 : ℚ) - 40 = 50 by norm_num]; rw [abs_of_pos] <;> norm_num,
   disagreement_forces_human_review (fun _ => Disposition.auto) 90 40 99
     (by rw [show (90 : ℚ) - 40 = 50 by norm_num]; rw [abs_of_pos] <;> norm_num)⟩

/-- C6. The cache store invariant: a present non-expired entry is served
exactly as stored with no pipeline invocation; an expired entry (and an
absent one) always triggers re-verification and is never served. -/
theorem cache_entry_never_bypassed (store : String → Option CacheEntry)
    (now : Nat) (fp : String) (fresh : Verdict) (e : CacheEntry) :
    (store fp = some e → isExpired e now = false →
      handleRequest store now fp fresh = (e.verdict, false)) ∧
    (store fp = some e → isExpired e now = true →
      handleRequest store now fp fresh = (fresh, true)) ∧
    (store fp = none → handleRequest store now fp fresh = (fresh, true)) := by
  refine ⟨?_, ?_, ?_⟩ <;> intro h <;> simp [handleRequest, h]

/-- C6 witness: a never-expiring entry is served as stored without
running the pipeline. -/
theorem cache_entry_never_bypassed_witness :
    sampleStore "fp" = some sampleEntry ∧
    isExpired sampleEntry 100 = false ∧
    handleRequest sampleStore 100 "fp" freshVerdict =
      (sampleEntry.verdict, false) :=
  ⟨rfl, rfl,
   (cache_entry_never_bypassed sampleStore 100 "fp" freshVerdict sampleEntry).1
     rfl rfl⟩

/-- C7. The Adversarial Challenger's categorical recommendation follows
the attack-strength buckets: below 0.3 the claim is robust, from 0.3 to
0.6 questionable, above 0.6 likely false. -/
theorem attack_strength_buckets (s : ℚ) (_h0 : 0 ≤ s) (_h1 : s ≤ 1) :
    (s < 3/10 → recommendationOf s = AttackRecommendation.claimRobust) ∧
    (3/10 ≤ s ∧ s ≤ 6/10 →
      recommendationOf s = AttackRecommendation.claimQuestionable) ∧
    (6/10 < s → recommendationOf s = AttackRecommendation.claimLikelyFalse) := by
  unfold recommendationOf
  split_ifs with ha hb <;> refine ⟨?_, ?_, ?_⟩ <;> intro h <;>
    first
      | rfl
      | (exfalso; linarith [h])

/-- C7 witness at attack strength 1/2. -/
theorem attack_strength_buckets_witness :
    (0 : ℚ) ≤ 1/2 ∧ (1/2 : ℚ) ≤ 1 ∧
    recommendationOf (1/2) = AttackRecommendation.claimQuestionable :=
  ⟨by norm_num, by norm_num,
   (attack_strength_buckets (1/2) (by norm_num) (by norm_num)).2.1
     ⟨by norm_num, by norm_num⟩⟩

/-- C8. A cache write failure after a completed run is swallowed: the
already-computed verdict is returned unchanged with no top-level error
whatever the write outcome, and on failure the store is simply left as
it was. -/
theorem cache_write_failure_swallowed (store : String → Option CacheEntry)
    (fp : String) (v : Verdict) (expiry : Nat) (writeOk : Bool) :
    (finalizeRun store fp v expiry writeOk).1 = Except.ok v ∧
    (writeOk = false → (finalizeRun store fp v expiry writeOk).2 = store) := by
  unfold finalizeRun
  cases writeOk <;> simp

/-- C8 witness: a failed write still returns the verdict and leaves the
store untouched. -/
theorem cache_write_failure_swallowed_witness :
    (finalizeRun sampleStore "fp" sampleVerdict 0 false).1 =
      Except.ok sampleVerdict ∧
    (finalizeRun sampleStore "fp" sampleVerdict 0 false).2 = sampleStore :=
  ⟨(cache_write_failure_swallowed sampleStore "fp" sampleVerdict 0 false).1,
   (cache_write_failure_swallowed sampleStore "fp" sampleVerdict 0 false).2 rfl⟩

/-- C9. Rendering of a result payload without `truth_probability` is NOT
total: the guarded verdict computation does treat the missing value as
50 and produces the UNCERTAIN badge, but the Truth Probability display
dereferences the raw field, so the component faults and renders
nothing. -/
theorem verification_render_faults_on_missing_truth_probability :
    renderVerification payloadMissingTP = none ∧
    verdictTextOf payloadMissingTP = "UNCERTAIN" := by
  refine ⟨rfl, ?_⟩
  decide

/-- C10. `handleSubmit` invokes `onSubmit` exactly when the form passes
validation — wallet non-empty after trimming, stake within `[1, 100]`,
at least two non-blank evidence links, explanation of at least 100
characters — the submitted `evidence_links` are exactly the non-blank
links, and every rejection sets a non-empty error message. -/
theorem challenge_form_submit_iff_valid (vid : String)
    (f : ChallengeFormState) :
    ((∃ cd, handleSubmit vid f = Except.ok cd) ↔
      (trimWS f.walletAddress ≠ "" ∧ 1 ≤ f.stakeAmount ∧
       f.stakeAmount ≤ 100 ∧
       2 ≤ (nonBlankLinks f.evidenceLinks).length ∧
       100 ≤ f.explanation.length)) ∧
    (∀ cd, handleSubmit vid f = Except.ok cd →
      cd.evidence_links =
        f.evidenceLinks.filter fun l => 0 < (trimWS l).length) ∧
    (∀ err, handleSubmit vid f = Except.error err → err ≠ "") := by
  unfold handleSubmit validateForm
  split_ifs with h1 h2 h3 h4
  · refine ⟨iff_of_false ?_ ?_, ?_, ?_⟩
    · rintro ⟨cd, h⟩
      simp at h
    · rintro ⟨hw, -⟩
      exact hw h1
    · intro cd h
      simp at h
    · intro err h
      simp only [Except.error.injEq] at h
      subst h
      decide
  · refine ⟨iff_of_false ?_ ?_, ?_, ?_⟩
    · rintro ⟨cd, h⟩
      simp at h
    · rintro ⟨-, hs1, hs2, -, -⟩
      rcases h2 with h | h <;> linarith
    · intro cd h
      simp at h
    · intro err h
      simp only [Except.error.injEq] at h
      subst h
      decide
  · refine ⟨iff_of_false ?_ ?_, ?_, ?_⟩
    · rintro ⟨cd, h⟩
      simp at h
    · rintro ⟨-, -, -, hl, -⟩
      omega
    · intro cd h
      simp at h
    · intro err h
      simp only [Except.error.injEq] at h
      subst h
      decide
  · refine ⟨iff_of_false ?_ ?_, ?_, ?_⟩
    · rintro ⟨cd, h⟩
      simp at h
    · rintro ⟨-, -, -, -, he⟩
      omega
    · intro cd h
      simp at h
    · intro err h
      simp only [Except.error.injEq] at h
      subst h
      decide
  · push_neg at h2
    refine ⟨iff_of_true ⟨_, rfl⟩ ⟨h1, h2.1, h2.2, by omega, by omega⟩, ?_, ?_⟩
    · intro cd h
      simp only [Except.ok.injEq] at h
      subst h
      rfl
    · intro err h
      simp at h

/-- C10 witness: a concrete valid form submits, and the payload carries
exactly the non-blank links. -/
theorem challenge_form_submit_iff_valid_witness :
    (∃ cd, handleSubmit "v1" sampleForm = Except.ok cd) ∧
    (∀ cd, handleSubmit "v1" sampleForm = Except.ok cd →
      cd.evidence_links =
        sampleForm.evidenceLinks.filter fun l => 0 < (trimWS l).length) :=
  ⟨(challenge_form_submit_iff_valid "v1" sampleForm).1.mpr
      ⟨by decide, by norm_num [sampleForm], by norm_num [sampleForm],
       by decide, by decide⟩,
   (challenge_form_submit_iff_valid "v1" sampleForm).2.1⟩

end Aletheia
